import Mathlib

/- Shallow embedding of the rule-based source security scanner of the
hypermesh repository, as implemented in
QUANTUM_CERTIFICATE_SECURITY_AUDIT.py, security_audit.py and
SECURITY_PRODUCTION_READINESS_VALIDATOR.py.  Python dataclasses become
Lean structures, the mutable statistics dictionary becomes an explicit
state record, regular-expression search is a predicate parameter, and
file reads that may raise become an Except value. -/

/- Enum SecuritySeverity of QUANTUM_CERTIFICATE_SECURITY_AUDIT.py. -/
inductive SecuritySeverity where
  | CRITICAL
  | HIGH
  | MEDIUM
  | LOW
  | INFO
deriving DecidableEq

/- Enum SecurityCategory of QUANTUM_CERTIFICATE_SECURITY_AUDIT.py. -/
inductive SecurityCategory where
  | QUANTUM_CRYPTO
  | CERTIFICATE_MGMT
  | CONSENSUS_PROOF
  | API_SECURITY
  | CONFIG_SECURITY
  | PRODUCTION_READINESS
deriving DecidableEq

/- Dataclass SecurityFinding of QUANTUM_CERTIFICATE_SECURITY_AUDIT.py
(the optional cve_reference field, always absent in the scanning paths
modelled here, is omitted). -/
structure SecurityFinding where
  category : SecurityCategory
  severity : SecuritySeverity
  title : String
  description : String
  file_path : String
  line_number : Nat
  evidence : String
  impact : String
  remediation : String
deriving DecidableEq

/- The severity_counts dictionary built in generate_security_report of
QUANTUM_CERTIFICATE_SECURITY_AUDIT.py: one counter per SecuritySeverity
value, all starting at 0. -/
structure SeverityCounts where
  critical : Nat
  high : Nat
  medium : Nat
  low : Nat
  info : Nat
deriving DecidableEq

/- One step of the tally loop: severity_counts[finding.severity.value] += 1. -/
def bump_severity (c : SeverityCounts) (s : SecuritySeverity) : SeverityCounts :=
  match s with
  | .CRITICAL => { c with critical := c.critical + 1 }
  | .HIGH => { c with high := c.high + 1 }
  | .MEDIUM => { c with medium := c.medium + 1 }
  | .LOW => { c with low := c.low + 1 }
  | .INFO => { c with info := c.info + 1 }

/- The tally over self.findings in generate_security_report. -/
def severity_counts (findings : List SecurityFinding) : SeverityCounts :=
  findings.foldl (fun c f => bump_severity c f.severity) ⟨0, 0, 0, 0, 0⟩

/- Sum of the values of the severity histogram. -/
def total_severity_count (c : SeverityCounts) : Nat :=
  c.critical + c.high + c.medium + c.low + c.info

/- The security_status if-chain of generate_security_report. -/
def security_status (c : SeverityCounts) : String :=
  if c.critical > 0 then "CRITICAL_VULNERABILITIES_FOUND"
  else if c.high > 0 then "HIGH_RISK_VULNERABILITIES_FOUND"
  else "ACCEPTABLE_RISK_LEVEL"

/- production_ready = (critical_count == 0 and high_count == 0). -/
def production_ready (c : SeverityCounts) : Bool :=
  c.critical = 0 && c.high = 0

/- Method _get_deployment_recommendation of
QUANTUM_CERTIFICATE_SECURITY_AUDIT.py. -/
def get_deployment_recommendation (ready : Bool) (critical high : Nat) : String :=
  if critical > 0 then "DEPLOYMENT BLOCKED - Critical security vulnerabilities must be resolved"
  else if high > 0 then "DEPLOYMENT AT RISK - High severity vulnerabilities should be resolved"
  else if ready then "DEPLOYMENT APPROVED - Security requirements met"
  else "FURTHER REVIEW REQUIRED - Additional security analysis needed"

/- The executive_summary object assembled by generate_security_report. -/
structure ExecutiveSummary where
  security_status : String
  production_ready : Bool
  total_findings : Nat
  critical_findings : Nat
  high_findings : Nat
  recommendation : String
deriving DecidableEq

/- The executive_summary field of the report returned by
generate_security_report of QUANTUM_CERTIFICATE_SECURITY_AUDIT.py. -/
def executive_summary (findings : List SecurityFinding) : ExecutiveSummary :=
  let c := severity_counts findings
  { security_status := security_status c
    production_ready := production_ready c
    total_findings := findings.length
    critical_findings := c.critical
    high_findings := c.high
    recommendation := get_deployment_recommendation (production_ready c) c.critical c.high }

/- One entry of the remediation_priority list of the report. -/
structure RemediationPriority where
  priority : Nat
  category : String
  count : Nat
  timeline : String
  description : String
deriving DecidableEq

/- Method _get_remediation_priorities of
QUANTUM_CERTIFICATE_SECURITY_AUDIT.py: a priority-1 entry when any
CRITICAL finding exists, then a priority-2 entry when any HIGH finding
exists. -/
def get_remediation_priorities (findings : List SecurityFinding) : List RemediationPriority :=
  let critical_findings := findings.filter (fun f => f.severity == SecuritySeverity.CRITICAL)
  let high_findings := findings.filter (fun f => f.severity == SecuritySeverity.HIGH)
  (if critical_findings.isEmpty then []
   else [{ priority := 1
           category := "Critical Security Fixes"
           count := critical_findings.length
           timeline := "Immediate (0-24 hours)"
           description := "Address all critical security vulnerabilities before any deployment" }]) ++
  (if high_findings.isEmpty then []
   else [{ priority := 2
           category := "High Severity Fixes"
           count := high_findings.length
           timeline := "Urgent (1-7 days)"
           description := "Resolve high severity issues to reduce security risk" }])

/- Exit code chosen at the end of main in
QUANTUM_CERTIFICATE_SECURITY_AUDIT.py: exit(0) when the report field
executive_summary.production_ready holds, exit(1) otherwise. -/
def quantum_audit_exit_code (findings : List SecurityFinding) : Nat :=
  if (executive_summary findings).production_ready then 0 else 1

/- One violation record appended by scan_rust_file of security_audit.py
(a Python dict with these keys). -/
structure Violation where
  file : String
  line : Nat
  violation_type : String
  code : String
  severity : String
  description : String
deriving DecidableEq

/- The self.violations dictionary of security_audit.py: four lists keyed
by severity name. -/
structure Violations where
  critical : List Violation
  high : List Violation
  medium : List Violation
  low : List Violation
deriving DecidableEq

/- The per-severity counts of the report summary built by
generate_report of security_audit.py (the lengths of the four lists;
security_audit.py has no INFO bucket, so that counter is 0). -/
def security_audit_severity_counts (v : Violations) : SeverityCounts :=
  { critical := v.critical.length
    high := v.high.length
    medium := v.medium.length
    low := v.low.length
    info := 0 }

/- Return value of main in security_audit.py, used as the process exit
status: 1 when report summary critical > 0, else 0. -/
def security_audit_exit_code (v : Violations) : Nat :=
  if v.critical.length > 0 then 1 else 0

/- Enum SecurityLevel of SECURITY_PRODUCTION_READINESS_VALIDATOR.py. -/
inductive SecurityLevel where
  | CRITICAL
  | HIGH
  | MEDIUM
  | LOW
deriving DecidableEq

/- Dataclass SecurityViolation of SECURITY_PRODUCTION_READINESS_VALIDATOR.py. -/
structure SecurityViolation where
  file_path : String
  line_number : Nat
  violation_type : String
  severity : SecurityLevel
  description : String
  evidence : String
deriving DecidableEq

/- The severity_counts dictionary of generate_security_report in
SECURITY_PRODUCTION_READINESS_VALIDATOR.py (four SecurityLevel keys). -/
structure LevelCounts where
  critical : Nat
  high : Nat
  medium : Nat
  low : Nat
deriving DecidableEq

/- One step of its tally loop: severity_counts[violation.severity] += 1. -/
def bump_level (c : LevelCounts) (s : SecurityLevel) : LevelCounts :=
  match s with
  | .CRITICAL => { c with critical := c.critical + 1 }
  | .HIGH => { c with high := c.high + 1 }
  | .MEDIUM => { c with medium := c.medium + 1 }
  | .LOW => { c with low := c.low + 1 }

/- The tally over self.violations in generate_security_report of the
validator script. -/
def validator_severity_counts (violations : List SecurityViolation) : LevelCounts :=
  violations.foldl (fun c v => bump_level c v.severity) ⟨0, 0, 0, 0⟩

/- Sum of the values of the validator severity histogram. -/
def total_level_count (c : LevelCounts) : Nat :=
  c.critical + c.high + c.medium + c.low

/- Python str.strip(): whitespace characters removed from both ends.
Python strips space, tab, newline, carriage return, vertical tab and
form feed. -/
def isPythonSpace (c : Char) : Bool :=
  c == ' ' || c == '\t' || c == '\n' || c == '\x0d' || c == '\x0b' || c == '\x0c'

/- line.strip() on the characters of a string. -/
def python_strip (s : String) : String :=
  String.mk (((s.data.dropWhile isPythonSpace).reverse.dropWhile isPythonSpace).reverse)

/- One (pattern, category, severity, description) argument tuple of a
call to _scan_for_pattern in QUANTUM_CERTIFICATE_SECURITY_AUDIT.py; the
caller loops over a list of such patterns, calling _scan_for_pattern
once per pattern. -/
structure PatternRule where
  pattern : String
  category : SecurityCategory
  severity : SecuritySeverity
  description : String
deriving DecidableEq

/- A file reached by the rglob loop of _scan_for_pattern, after the
is_file and suffix filters: its path and either its decoded lines
(readlines, trailing newlines immaterial after strip) or an error when
open or readlines raised. -/
structure ScannedFile where
  path : String
  content : Except Unit (List String)

/- The scanner state of QUANTUM_CERTIFICATE_SECURITY_AUDIT.py:
self.findings plus the full self.stats dictionary, whose only keys are
files_scanned, lines_scanned and vulnerabilities_found. -/
structure ScanState where
  findings : List SecurityFinding
  files_scanned : Nat
  lines_scanned : Nat
  vulnerabilities_found : Nat
deriving DecidableEq

/- The auditor state at construction time: no findings, all statistics 0. -/
def emptyScanState : ScanState :=
  { findings := [], files_scanned := 0, lines_scanned := 0, vulnerabilities_found := 0 }

/- The SecurityFinding appended by _scan_for_pattern on a regex hit:
evidence is line.strip() with no truncation. -/
def mkPatternFinding (rule : PatternRule) (path : String) (line_num : Nat) (line : String) : SecurityFinding :=
  { category := rule.category
    severity := rule.severity
    title := rule.description
    description := "Pattern \x27" ++ rule.pattern ++ "\x27 found in code"
    file_path := path
    line_number := line_num
    evidence := python_strip line
    impact := "Potential security vulnerability"
    remediation := "Review and fix identified security issue" }

/- The body of _scan_for_pattern for one file: on a read error the bare
except clause does nothing (except: pass), otherwise every line is
tested with re.search (modelled by the predicate reSearch applied to
the pattern and the line) and each hit appends a finding and increments
vulnerabilities_found.  Line numbers are 1-based (enumerate(lines, 1)). -/
def scan_file_for_pattern (reSearch : String → String → Bool) (rule : PatternRule)
    (st : ScanState) (file : ScannedFile) : ScanState :=
  match file.content with
  | .error _ => st
  | .ok lines =>
    (List.enumFrom 1 lines).foldl
      (fun st p =>
        if reSearch rule.pattern p.2 then
          { st with
            findings := st.findings ++ [mkPatternFinding rule file.path p.1 p.2]
            vulnerabilities_found := st.vulnerabilities_found + 1 }
        else st)
      st

/- Method _scan_for_pattern of QUANTUM_CERTIFICATE_SECURITY_AUDIT.py:
the rglob loop over all eligible files for one pattern. -/
def scan_for_pattern (reSearch : String → String → Bool) (rule : PatternRule)
    (files : List ScannedFile) (st : ScanState) : ScanState :=
  files.foldl (scan_file_for_pattern reSearch rule) st

/- A caller loop such as _check_mock_implementations: for each pattern
in its list, one _scan_for_pattern pass over the same files. -/
def scan_patterns (reSearch : String → String → Bool) (rules : List PatternRule)
    (files : List ScannedFile) (st : ScanState) : ScanState :=
  rules.foldl (fun st r => scan_for_pattern reSearch r files st) st

/- One directory entry met by the recursive glob: the directory it
denotes and whether the entry itself is a symbolic link.  For such an
entry, is_dir with follow_symlinks set to False holds exactly when the
entry is not a symlink. -/
structure DirEntry (α : Type) where
  target : α
  is_symlink : Bool
deriving DecidableEq

/- The recursive directory expansion of Path.rglob as called in
scan_project of security_audit.py and _scan_for_pattern of
QUANTUM_CERTIFICATE_SECURITY_AUDIT.py: pathlib expands a recursive
glob by listing a directory and recursing only into entries for which
is_dir with follow_symlinks set to False holds, so an entry that is a
symbolic link is never descended, and there is no visited-inode
bookkeeping of any kind.  The fuel argument bounds the recursion depth
of the model; none means the expansion was cut off by the fuel before
completing, so the traversal completes exactly when some fuel yields a
value.  The result lists the directories whose contents are
enumerated, parent before children, in entry order. -/
def iterate_directories (children : α → List (DirEntry α)) : Nat → α → Option (List α)
  | 0, _ => none
  | fuel + 1, d =>
    (children d).foldl
      (fun acc e =>
        if e.is_symlink then acc
        else acc.bind (fun xs =>
          (iterate_directories children fuel e.target).map (fun ys => xs ++ ys)))
      (some [d])

/- The per-entry step of the fold above, named for the proofs. -/
def glob_step (children : α → List (DirEntry α)) (fuel : Nat)
    (acc : Option (List α)) (e : DirEntry α) : Option (List α) :=
  if e.is_symlink then acc
  else acc.bind (fun xs =>
    (iterate_directories children fuel e.target).map (fun ys => xs ++ ys))

/-- Modelled from the spec: the visited-inode guard that the claim
attributes to the walker.  A traversal with that guard follows every
directory entry, symbolic links included, and avoids cycles by
skipping exactly those directories whose inode it has already visited.
No such code exists in the repository; this definition renders the
claimed mechanism so it can be compared with the source walker. -/
def inode_guard_walk [DecidableEq α] (children : α → List (DirEntry α)) :
    Nat → List α → α → Option (List α)
  | 0, _, _ => none
  | fuel + 1, seen, d =>
    if d ∈ seen then some seen
    else
      (children d).foldl
        (fun acc e => acc.bind (fun seen2 => inode_guard_walk children fuel seen2 e.target))
        (some (seen ++ [d]))

/- A scan root with a cyclic directory symlink: the root (false) has
one real subdirectory (true), whose single entry is a symbolic link
back to the root. -/
def cyc_children : Bool → List (DirEntry Bool) :=
  fun d =>
    if d then [{ target := false, is_symlink := true }]
    else [{ target := true, is_symlink := false }]

/- The depth rank of the real (non-symlink) directories of that root. -/
def cyc_rank : Bool → Nat := fun d => if d then 0 else 1

/- A scan root (false) whose only entry is a directory symlink to an
otherwise unreachable, never-visited directory (true) with no
entries. -/
def sym_children : Bool → List (DirEntry Bool) :=
  fun d => if d then [] else [{ target := true, is_symlink := true }]

/- Concrete inputs used by the witnesses and counterexamples below. -/
def exampleHighFinding : SecurityFinding :=
  { category := SecurityCategory.API_SECURITY
    severity := SecuritySeverity.HIGH
    title := "t"
    description := "d"
    file_path := "a.rs"
    line_number := 3
    evidence := "e"
    impact := "i"
    remediation := "r" }

def exampleMediumFinding : SecurityFinding :=
  { exampleHighFinding with severity := SecuritySeverity.MEDIUM }

def exampleFindings : List SecurityFinding := [exampleHighFinding]

def exampleHighViolation : Violation :=
  { file := "a.rs"
    line := 7
    violation_type := "UNWRAP_PANIC"
    code := "x.unwrap()"
    severity := "HIGH"
    description := "Unwrap() can cause panic in production" }

def exampleViolations : Violations :=
  { critical := [], high := [exampleHighViolation], medium := [], low := [] }

def examplePatternRule : PatternRule :=
  { pattern := "mock_"
    category := SecurityCategory.PRODUCTION_READINESS
    severity := SecuritySeverity.CRITICAL
    description := "Mock/placeholder implementation" }

/- The histogram increment paired with one more CRITICAL finding, used
by the monotonicity claim about the verdict. -/
def add_critical (c : SeverityCounts) : SeverityCounts :=
  { c with critical := c.critical + 1 }

/- Helper lemmas about the severity tallies. -/

theorem total_severity_foldl (l : List SecurityFinding) (c : SeverityCounts) :
    total_severity_count (l.foldl (fun c f => bump_severity c f.severity) c)
      = total_severity_count c + l.length := by
  induction l generalizing c with
  | nil => simp
  | cons f t ih =>
    rw [List.foldl_cons, ih]
    cases f.severity <;> simp [bump_severity, total_severity_count] <;> omega

theorem total_level_foldl (l : List SecurityViolation) (c : LevelCounts) :
    total_level_count (l.foldl (fun c v => bump_level c v.severity) c)
      = total_level_count c + l.length := by
  induction l generalizing c with
  | nil => simp
  | cons v t ih =>
    rw [List.foldl_cons, ih]
    cases v.severity <;> simp [bump_level, total_level_count] <;> omega

theorem severity_foldl_critical (l : List SecurityFinding) (c : SeverityCounts) :
    (l.foldl (fun c f => bump_severity c f.severity) c).critical
      = c.critical + (l.filter (fun f => f.severity == SecuritySeverity.CRITICAL)).length := by
  induction l generalizing c with
  | nil => simp
  | cons f t ih =>
    rw [List.foldl_cons, ih, List.filter_cons]
    cases hf : f.severity <;> simp [bump_severity, hf] <;> omega

theorem severity_foldl_high (l : List SecurityFinding) (c : SeverityCounts) :
    (l.foldl (fun c f => bump_severity c f.severity) c).high
      = c.high + (l.filter (fun f => f.severity == SecuritySeverity.HIGH)).length := by
  induction l generalizing c with
  | nil => simp
  | cons f t ih =>
    rw [List.foldl_cons, ih, List.filter_cons]
    cases hf : f.severity <;> simp [bump_severity, hf] <;> omega

theorem severity_counts_critical (l : List SecurityFinding) :
    (severity_counts l).critical
      = (l.filter (fun f => f.severity == SecuritySeverity.CRITICAL)).length := by
  have := severity_foldl_critical l ⟨0, 0, 0, 0, 0⟩
  simpa [severity_counts] using this

theorem severity_counts_high (l : List SecurityFinding) :
    (severity_counts l).high
      = (l.filter (fun f => f.severity == SecuritySeverity.HIGH)).length := by
  have := severity_foldl_high l ⟨0, 0, 0, 0, 0⟩
  simpa [severity_counts] using this

/-- Claim C1: for every severity histogram the verdict follows the fixed
precedence: a positive CRITICAL count gives status
CRITICAL_VULNERABILITIES_FOUND and production_ready false; otherwise a
positive HIGH count gives status HIGH_RISK_VULNERABILITIES_FOUND and
production_ready false; otherwise the status is ACCEPTABLE_RISK_LEVEL
and production_ready is true. -/
theorem C1_verdict_precedence (c : SeverityCounts) :
    (security_status c = "CRITICAL_VULNERABILITIES_FOUND" ↔ 0 < c.critical) ∧
    (security_status c = "HIGH_RISK_VULNERABILITIES_FOUND" ↔ c.critical = 0 ∧ 0 < c.high) ∧
    (security_status c = "ACCEPTABLE_RISK_LEVEL" ↔ c.critical = 0 ∧ c.high = 0) ∧
    ((production_ready c = true) ↔ c.critical = 0 ∧ c.high = 0) ∧
    ((production_ready c = false) ↔ 0 < c.critical ∨ 0 < c.high) := by
  unfold security_status production_ready
  rcases Nat.eq_zero_or_pos c.critical with hc | hc <;>
    rcases Nat.eq_zero_or_pos c.high with hh | hh <;>
      simp [hc, hh, Nat.pos_iff_ne_zero] <;> omega

/-- Claim C9: incrementing the CRITICAL count of a histogram whose
verdict already has production_ready false never flips
production_ready back to true. -/
theorem C9_verdict_monotone_in_critical (c : SeverityCounts)
    (h : production_ready c = false) :
    production_ready (add_critical c) = false := by
  simp [production_ready, add_critical]

/-- Witness for C9 at the histogram with one HIGH finding. -/
theorem C9_verdict_monotone_in_critical_witness :
    production_ready ⟨0, 1, 0, 0, 0⟩ = false ∧
    production_ready (add_critical ⟨0, 1, 0, 0, 0⟩) = false :=
  ⟨by decide, C9_verdict_monotone_in_critical ⟨0, 1, 0, 0, 0⟩ (by decide)⟩

/-- Claim C3: the severity histogram built by report generation sums to
the number of findings, in QUANTUM_CERTIFICATE_SECURITY_AUDIT.py and in
SECURITY_PRODUCTION_READINESS_VALIDATOR.py alike: every finding is
tallied under exactly one severity bucket. -/
theorem C3_histogram_sums_to_findings (findings : List SecurityFinding)
    (violations : List SecurityViolation) :
    total_severity_count (severity_counts findings) = findings.length ∧
    total_level_count (validator_severity_counts violations) = violations.length := by
  constructor
  · have := total_severity_foldl findings ⟨0, 0, 0, 0, 0⟩
    simpa [severity_counts, total_severity_count] using this
  · have := total_level_foldl violations ⟨0, 0, 0, 0⟩
    simpa [validator_severity_counts, total_level_count] using this

/-- Counterexample to claim C2: in security_audit.py a completed run
with one HIGH violation and no CRITICAL violation exits with status 0,
even though the verdict rule on the same histogram has
production_ready false, so the exit status is not 0 exactly when
deployment-ready is true. -/
theorem C2_counterexample_high_only_run_exits_zero :
    security_audit_exit_code exampleViolations = 0 ∧
    production_ready (security_audit_severity_counts exampleViolations) = false := by
  constructor <;> rfl

/-- Claim C2 amended: QUANTUM_CERTIFICATE_SECURITY_AUDIT.py exits 0
exactly when the report has production_ready true, while
security_audit.py exits 0 exactly when the CRITICAL count is 0 — HIGH
findings alone do not make its exit status non-zero. -/
theorem C2_amended_exit_status_contract (findings : List SecurityFinding) (v : Violations) :
    (quantum_audit_exit_code findings = 0 ↔ (executive_summary findings).production_ready = true) ∧
    (security_audit_exit_code v = 0 ↔ v.critical.length = 0) := by
  constructor
  · unfold quantum_audit_exit_code
    cases h : (executive_summary findings).production_ready <;> simp [h]
  · unfold security_audit_exit_code
    constructor
    · intro h0
      by_contra hne
      have hpos : v.critical.length > 0 := Nat.pos_of_ne_zero hne
      simp [hpos] at h0
    · intro h0
      simp [h0]

/-- Claim C10: the verdict depends only on the CRITICAL and HIGH counts:
two finding lists with the same number of CRITICAL findings and the
same number of HIGH findings get the same security_status, the same
production_ready flag and the same recommendation string, whatever
their MEDIUM, LOW or INFO findings are. -/
theorem C10_verdict_depends_only_on_critical_and_high (l1 l2 : List SecurityFinding)
    (hc : (l1.filter (fun f => f.severity == SecuritySeverity.CRITICAL)).length
        = (l2.filter (fun f => f.severity == SecuritySeverity.CRITICAL)).length)
    (hh : (l1.filter (fun f => f.severity == SecuritySeverity.HIGH)).length
        = (l2.filter (fun f => f.severity == SecuritySeverity.HIGH)).length) :
    (executive_summary l1).security_status = (executive_summary l2).security_status ∧
    (executive_summary l1).production_ready = (executive_summary l2).production_ready ∧
    (executive_summary l1).recommendation = (executive_summary l2).recommendation := by
  have e1 : (severity_counts l1).critical = (severity_counts l2).critical := by
    rw [severity_counts_critical, severity_counts_critical, hc]
  have e2 : (severity_counts l1).high = (severity_counts l2).high := by
    rw [severity_counts_high, severity_counts_high, hh]
  refine ⟨?_, ?_, ?_⟩ <;>
    simp only [executive_summary, security_status, production_ready,
      get_deployment_recommendation, e1, e2]

/-- Witness for C10: a list with one MEDIUM finding and the empty list
have equal CRITICAL and HIGH counts and get identical verdict fields. -/
theorem C10_verdict_depends_only_on_critical_and_high_witness :
    (([exampleMediumFinding].filter (fun f => f.severity == SecuritySeverity.CRITICAL)).length
        = (([] : List SecurityFinding).filter (fun f => f.severity == SecuritySeverity.CRITICAL)).length ∧
     ([exampleMediumFinding].filter (fun f => f.severity == SecuritySeverity.HIGH)).length
        = (([] : List SecurityFinding).filter (fun f => f.severity == SecuritySeverity.HIGH)).length) ∧
    ((executive_summary [exampleMediumFinding]).security_status
        = (executive_summary []).security_status ∧
     (executive_summary [exampleMediumFinding]).production_ready
        = (executive_summary []).production_ready ∧
     (executive_summary [exampleMediumFinding]).recommendation
        = (executive_summary []).recommendation) :=
  ⟨⟨by decide, by decide⟩,
    C10_verdict_depends_only_on_critical_and_high [exampleMediumFinding] []
      (by decide) (by decide)⟩

/-- Claim C7: when the finding list has at least one HIGH finding and no
CRITICAL finding, the remediation priority list is exactly one entry,
the priority-2 entry with the Urgent (1-7 days) timeline. -/
theorem C7_high_only_gives_single_urgent_priority (findings : List SecurityFinding)
    (hh : findings.filter (fun f => f.severity == SecuritySeverity.HIGH) ≠ [])
    (hc : findings.filter (fun f => f.severity == SecuritySeverity.CRITICAL) = []) :
    get_remediation_priorities findings =
      [{ priority := 2
         category := "High Severity Fixes"
         count := (findings.filter (fun f => f.severity == SecuritySeverity.HIGH)).length
         timeline := "Urgent (1-7 days)"
         description := "Resolve high severity issues to reduce security risk" }] := by
  simp only [get_remediation_priorities, hc]
  cases hfil : findings.filter (fun f => f.severity == SecuritySeverity.HIGH) with
  | nil => exact absurd hfil hh
  | cons a t => simp [hfil]

/-- Witness for C7 at a one-element list holding a HIGH finding. -/
theorem C7_high_only_gives_single_urgent_priority_witness :
    (exampleFindings.filter (fun f => f.severity == SecuritySeverity.HIGH) ≠ [] ∧
     exampleFindings.filter (fun f => f.severity == SecuritySeverity.CRITICAL) = []) ∧
    get_remediation_priorities exampleFindings =
      [{ priority := 2
         category := "High Severity Fixes"
         count := (exampleFindings.filter (fun f => f.severity == SecuritySeverity.HIGH)).length
         timeline := "Urgent (1-7 days)"
         description := "Resolve high severity issues to reduce security risk" }] :=
  ⟨⟨by decide, by decide⟩,
    C7_high_only_gives_single_urgent_priority exampleFindings (by decide) (by decide)⟩

/- Helper lemmas about the pattern scanner. -/

theorem scan_single_line (reSearch : String → String → Bool) (r : PatternRule)
    (path line : String) (st : ScanState) :
    scan_for_pattern reSearch r [{ path := path, content := Except.ok [line] }] st =
      if reSearch r.pattern line then
        { st with
          findings := st.findings ++ [mkPatternFinding r path 1 line]
          vulnerabilities_found := st.vulnerabilities_found + 1 }
      else st := by
  simp [scan_for_pattern, scan_file_for_pattern, List.enumFrom]

theorem scan_patterns_single_line_findings (reSearch : String → String → Bool)
    (rules : List PatternRule) (path line : String) (st : ScanState) :
    (scan_patterns reSearch rules [{ path := path, content := Except.ok [line] }] st).findings
      = st.findings
        ++ (rules.filter (fun r => reSearch r.pattern line)).map
             (fun r => mkPatternFinding r path 1 line) := by
  induction rules generalizing st with
  | nil => simp [scan_patterns]
  | cons r rs ih =>
    show (scan_patterns reSearch rs [{ path := path, content := Except.ok [line] }]
            (scan_for_pattern reSearch r [{ path := path, content := Except.ok [line] }] st)).findings
          = st.findings
            ++ ((r :: rs).filter (fun r => reSearch r.pattern line)).map
                 (fun r => mkPatternFinding r path 1 line)
    rw [scan_single_line, List.filter_cons]
    cases h : reSearch r.pattern line <;> simp [h, ih]

/-- Claim C6: the matcher tests every rule against the line with no
early exit on first match: scanning one line against a rule list
produces exactly one raw match per matching rule, in rule order. -/
theorem C6_no_early_exit_on_first_match (reSearch : String → String → Bool)
    (rules : List PatternRule) (path line : String) :
    (scan_patterns reSearch rules [{ path := path, content := Except.ok [line] }] emptyScanState).findings
      = (rules.filter (fun r => reSearch r.pattern line)).map
          (fun r => mkPatternFinding r path 1 line) ∧
    (scan_patterns reSearch rules [{ path := path, content := Except.ok [line] }] emptyScanState).findings.length
      = (rules.filter (fun r => reSearch r.pattern line)).length := by
  have h := scan_patterns_single_line_findings reSearch rules path line emptyScanState
  constructor
  · simpa [emptyScanState] using h
  · rw [h]
    simp [emptyScanState]

/-- Counterexample to claim C4: in _scan_for_pattern a file whose read
fails is handled by a bare except clause that does nothing, so scanning
a failing file leaves the whole scanner state — findings and every
statistics counter — exactly as it was: no rejection counter is
incremented and nothing is recorded. -/
theorem C4_counterexample_failed_read_recorded_nowhere :
    scan_for_pattern (fun _ _ => true) examplePatternRule
        [{ path := "bad.rs", content := Except.error () }] emptyScanState
      = emptyScanState := rfl

/-- Claim C4 amended: a file read or decode failure does not abort the
scan — the failing file is skipped and the remaining files are scanned
exactly as if the failing file were absent — but no rejection counter
exists in the scan statistics: _scan_for_pattern silently ignores the
failure (its state is unchanged), and only _audit_file prints a console
message outside the statistics. -/
theorem C4_amended_failed_read_skipped_and_scan_continues
    (reSearch : String → String → Bool) (rule : PatternRule) (p : String)
    (rest : List ScannedFile) (st : ScanState) :
    scan_for_pattern reSearch rule ({ path := p, content := Except.error () } :: rest) st
      = scan_for_pattern reSearch rule rest st := rfl

/- Helpers for the symlink claim: unfolding the walker, preservation of
completion across the per-entry fold, and termination along a rank that
decreases on every real (non-symlink) entry. -/

theorem iterate_directories_succ (children : α → List (DirEntry α)) (fuel : Nat) (d : α) :
    iterate_directories children (fuel + 1) d
      = (children d).foldl (glob_step children fuel) (some [d]) := rfl

theorem glob_foldl_isSome (children : α → List (DirEntry α)) (fuel : Nat)
    (entries : List (DirEntry α)) :
    ∀ xs : List α,
      (∀ e ∈ entries, e.is_symlink = false →
          (iterate_directories children fuel e.target).isSome = true) →
      (entries.foldl (glob_step children fuel) (some xs)).isSome = true := by
  induction entries with
  | nil =>
    intro xs _
    rfl
  | cons e es ih =>
    intro xs h
    rw [List.foldl_cons]
    cases hsym : e.is_symlink with
    | true =>
      have hstep : glob_step children fuel (some xs) e = some xs := by
        simp [glob_step, hsym]
      rw [hstep]
      exact ih xs (fun x hx hs => h x (List.mem_cons_of_mem e hx) hs)
    | false =>
      have hi := h e (List.mem_cons_self e es) hsym
      cases htgt : iterate_directories children fuel e.target with
      | none =>
        rw [htgt] at hi
        simp at hi
      | some ys =>
        have hstep : glob_step children fuel (some xs) e = some (xs ++ ys) := by
          simp [glob_step, hsym, htgt]
        rw [hstep]
        exact ih (xs ++ ys) (fun x hx hs => h x (List.mem_cons_of_mem e hx) hs)

theorem iterate_directories_terminates (children : α → List (DirEntry α)) (rank : α → Nat)
    (hrank : ∀ d, ∀ e ∈ children d, e.is_symlink = false → rank e.target < rank d) :
    ∀ fuel d, rank d < fuel → (iterate_directories children fuel d).isSome = true := by
  intro fuel
  induction fuel with
  | zero =>
    intro d hd
    exact absurd hd (Nat.not_lt_zero _)
  | succ f ih =>
    intro d hd
    rw [iterate_directories_succ]
    apply glob_foldl_isSome
    intro e he hs
    apply ih
    have := hrank d e he hs
    omega

/-- Counterexample to claim C5 as stated: the walker holds no
visited-inode guard — termination comes from never descending any
directory symlink.  On a root whose single entry is a symlink to a
fresh, never-before-visited directory, a traversal with the claimed
visited-inode guard enters the symlinked directory, while the source
walker does not enumerate it at all: the claimed mechanism is not the
code's. -/
theorem C5_counterexample_walker_has_no_inode_guard :
    iterate_directories sym_children 2 false = some [false] ∧
    inode_guard_walk sym_children 2 [] false = some [false, true] := by
  constructor <;> rfl

/-- Claim C5 amended: for every scan root whose real (non-symlink)
directory structure is well-founded — as on an actual filesystem,
witnessed here by a rank that decreases along every non-symlink
entry — the recursive glob expansion terminates, cyclic directory
symlinks included, because pathlib recurses only into entries that are
directories without following symlinks; no visited-inode guard exists
or is involved. -/
theorem C5_amended_traversal_terminates_without_guard {α : Type}
    (children : α → List (DirEntry α)) (rank : α → Nat) (root : α) (fuel : Nat)
    (hrank : ∀ d, ∀ e ∈ children d, e.is_symlink = false → rank e.target < rank d)
    (hfuel : rank root < fuel) :
    (iterate_directories children fuel root).isSome = true :=
  iterate_directories_terminates children rank hrank fuel root hfuel

/-- Witness for the amended C5 at the two-directory cyclic-symlink
root: the rank hypothesis holds there and the walker completes with
fuel 2. -/
theorem C5_amended_traversal_terminates_witness :
    (∀ d : Bool, ∀ e ∈ cyc_children d, e.is_symlink = false →
        cyc_rank e.target < cyc_rank d) ∧
    cyc_rank false < 2 ∧
    (iterate_directories cyc_children 2 false).isSome = true :=
  ⟨by decide, by decide,
    C5_amended_traversal_terminates_without_guard cyc_children cyc_rank false 2
      (by decide) (by decide)⟩

/- Helper for the evidence-bound claim: stripping a string of B + 1
letters keeps all of them. -/

theorem python_strip_replicate (n : Nat) :
    (python_strip (String.mk (List.replicate (n + 1) 'a'))).length = n + 1 := by
  have hdrop : (List.replicate (n + 1) 'a').dropWhile isPythonSpace
      = List.replicate (n + 1) 'a' := by
    rw [List.replicate_succ, List.dropWhile_cons, if_neg (by decide), ← List.replicate_succ]
  have hval : python_strip (String.mk (List.replicate (n + 1) 'a'))
      = String.mk ((((List.replicate (n + 1) 'a').dropWhile
          isPythonSpace).reverse.dropWhile isPythonSpace).reverse) := rfl
  rw [hval, hdrop, List.reverse_replicate, hdrop, List.reverse_replicate]
  show (List.replicate (n + 1) 'a').length = n + 1
  simp

/-- Counterexample to claim C8: the evidence stored by _scan_for_pattern
is line.strip() with no truncation, so no fixed bound limits its
length — for every candidate bound there is a matched line whose
finding carries longer evidence. -/
theorem C8_counterexample_evidence_has_no_bound :
    ¬ ∃ bound : Nat, ∀ (path line : String) (line_num : Nat),
        (mkPatternFinding examplePatternRule path line_num line).evidence.length ≤ bound := by
  rintro ⟨B, h⟩
  have hb := h "f.rs" (String.mk (List.replicate (B + 1) 'a')) 1
  have he : (mkPatternFinding examplePatternRule "f.rs" 1
      (String.mk (List.replicate (B + 1) 'a'))).evidence.length = B + 1 := by
    show (python_strip (String.mk (List.replicate (B + 1) 'a'))).length = B + 1
    exact python_strip_replicate B
  omega

/-- Claim C8 amended: the evidence of the finding produced by a
successful match is the matched source line with surrounding whitespace
stripped, stored untruncated. -/
theorem C8_amended_evidence_is_stripped_line_untruncated
    (reSearch : String → String → Bool) (rule : PatternRule) (path line : String)
    (h : reSearch rule.pattern line = true) :
    (scan_for_pattern reSearch rule
        [{ path := path, content := Except.ok [line] }] emptyScanState).findings
      = [mkPatternFinding rule path 1 line] ∧
    (mkPatternFinding rule path 1 line).evidence = python_strip line := by
  constructor
  · rw [scan_single_line]
    simp [h, emptyScanState]
  · rfl

/-- Witness for the amended C8 at a concrete matcher, rule and line. -/
theorem C8_amended_evidence_witness :
    ((fun p l => p == l) examplePatternRule.pattern "mock_" = true) ∧
    ((scan_for_pattern (fun p l => p == l) examplePatternRule
        [{ path := "f.rs", content := Except.ok ["mock_"] }] emptyScanState).findings
      = [mkPatternFinding examplePatternRule "f.rs" 1 "mock_"] ∧
     (mkPatternFinding examplePatternRule "f.rs" 1 "mock_").evidence = python_strip "mock_") :=
  ⟨by decide,
    C8_amended_evidence_is_stripped_line_untruncated (fun p l => p == l)
      examplePatternRule "f.rs" "mock_" (by decide)⟩
